import Mathlib

/-!
# Verification development for `shp-build`

Part I embeds `pkg/validate/validate.go` (the validator dispatcher `NewValidation`).
Go pointers and interface values are modelled as `Option` (`none` is `nil`); the
two results of a Go function are a pair.  The types `build.Build`, `client.Client`
and `runtime.Scheme` are declared outside the embedded file and are type parameters
`B`, `C` and `S`.
-/

set_option autoImplicit false

namespace validate

/-- Value of a Go `error` built by `fmt.Errorf`: the message it carries. -/
structure GoError where
  msg : String
  deriving DecidableEq, Repr

/-- Go `fmt.Errorf(format)` called with a verb-free format and no arguments: the
message is the format string itself. -/
def Errorf (format : String) : GoError := { msg := format }

/-- Secrets for validating secret references in Build objects. -/
def Secrets : String := "secrets"

/-- Strategies for validating strategy references in Build objects. -/
def Strategies : String := "strategy"

/-- SourceURL for validating the source URL in Build objects. -/
def SourceURL : String := "sourceurl"

/-- Runtime for validating the runtime definition in Build objects. -/
def Runtime : String := "runtime"

/-- Sources for validating the `spec.sources` entries. -/
def Sources : String := "sources"

/-- OwnerReferences for validating the ownerreferences between a Build and BuildRun objects. -/
def OwnerReferences : String := "ownerreferences"

/-- Struct literal `Credentials{Build: build, Client: client}`. -/
structure Credentials (B C : Type) where
  Build : Option B
  Client : Option C
  deriving DecidableEq, Repr

/-- Struct literal `Strategy{Build: build, Client: client}`. -/
structure Strategy (B C : Type) where
  Build : Option B
  Client : Option C
  deriving DecidableEq, Repr

/-- Struct literal `SourceURLRef{Build: build, Client: client}`. -/
structure SourceURLRef (B C : Type) where
  Build : Option B
  Client : Option C
  deriving DecidableEq, Repr

/-- Struct literal `RuntimeRef{Build: build, Client: client}`. -/
structure RuntimeRef (B C : Type) where
  Build : Option B
  Client : Option C
  deriving DecidableEq, Repr

/-- Struct literal `OwnerRef{Build: build, Client: client, Scheme: scheme}`. -/
structure OwnerRef (B C S : Type) where
  Build : Option B
  Client : Option C
  Scheme : Option S
  deriving DecidableEq, Repr

/-- Struct literal `SourcesRef{Build: build}`: the only field the dispatcher sets. -/
structure SourcesRef (B : Type) where
  Build : Option B
  deriving DecidableEq, Repr

/-- A non-nil value of the interface `BuildPath`: a pointer to one of the six
structs that `NewValidation` allocates, tagged with its dynamic type. -/
inductive BuildPath (B C S : Type) where
  | ofCredentials (v : Credentials B C)
  | ofStrategy (v : Strategy B C)
  | ofSourceURLRef (v : SourceURLRef B C)
  | ofRuntimeRef (v : RuntimeRef B C)
  | ofOwnerRef (v : OwnerRef B C S)
  | ofSourcesRef (v : SourcesRef B)
  deriving DecidableEq, Repr

/-- Dynamic type of a `BuildPath` value. -/
inductive Kind where
  | Credentials
  | Strategy
  | SourceURLRef
  | RuntimeRef
  | OwnerRef
  | SourcesRef
  deriving DecidableEq, Repr

/-- The dynamic type behind the interface value. -/
def BuildPath.kind {B C S : Type} : BuildPath B C S → Kind
  | .ofCredentials _ => Kind.Credentials
  | .ofStrategy _ => Kind.Strategy
  | .ofSourceURLRef _ => Kind.SourceURLRef
  | .ofRuntimeRef _ => Kind.RuntimeRef
  | .ofOwnerRef _ => Kind.OwnerRef
  | .ofSourcesRef _ => Kind.SourcesRef

/-- The `Build` field of the struct behind the interface value. -/
def BuildPath.build {B C S : Type} : BuildPath B C S → Option B
  | .ofCredentials v => v.Build
  | .ofStrategy v => v.Build
  | .ofSourceURLRef v => v.Build
  | .ofRuntimeRef v => v.Build
  | .ofOwnerRef v => v.Build
  | .ofSourcesRef v => v.Build

/-- The `Client` field of the struct behind the interface value, when the struct
literal sets one (`none` for the struct that is built without a client). -/
def BuildPath.client {B C S : Type} : BuildPath B C S → Option (Option C)
  | .ofCredentials v => some v.Client
  | .ofStrategy v => some v.Client
  | .ofSourceURLRef v => some v.Client
  | .ofRuntimeRef v => some v.Client
  | .ofOwnerRef v => some v.Client
  | .ofSourcesRef _ => none

/-- The `Scheme` field of the struct behind the interface value, when the struct
literal sets one. -/
def BuildPath.scheme {B C S : Type} : BuildPath B C S → Option (Option S)
  | .ofOwnerRef v => some v.Scheme
  | _ => none

/-- NewValidation returns an specific Structure that implements the BuildPath
interface: the `switch` of `validate.go`, case by case in source order. -/
def NewValidation {B C S : Type} (validationType : String) (build : Option B)
    (client : Option C) (scheme : Option S) : Option (BuildPath B C S) × Option GoError :=
  if validationType = Secrets then
    (some (.ofCredentials { Build := build, Client := client }), none)
  else if validationType = Strategies then
    (some (.ofStrategy { Build := build, Client := client }), none)
  else if validationType = SourceURL then
    (some (.ofSourceURLRef { Build := build, Client := client }), none)
  else if validationType = Runtime then
    (some (.ofRuntimeRef { Build := build, Client := client }), none)
  else if validationType = OwnerReferences then
    (some (.ofOwnerRef { Build := build, Client := client, Scheme := scheme }), none)
  else if validationType = Sources then
    (some (.ofSourcesRef { Build := build }), none)
  else
    (none, some (Errorf "unknown validation type"))

/-- The six exported constants of the `const` block, the concern tokens. -/
def concerns : List String :=
  [Secrets, Strategies, SourceURL, Runtime, Sources, OwnerReferences]

/-- The unexported constant `namespace` that closes the `const` block together with
`name`; the switch of `NewValidation` has no case for it. -/
def namespace' : String := "namespace"

/-- The unexported constant `name` of the `const` block; the switch of
`NewValidation` has no case for it. -/
def name : String := "name"

end validate


/-!
## Part II: the reconciliation engine

The end-to-end tests of `test/e2e/v1beta1/e2e_test.go` exercise the BuildRun
reconciler, the strategy resolver, the failure classifier and the garbage
collection of BuildRuns.  Their implementation is not part of the embedded
sources, so the definitions below follow the specification (sections 3, 4.2 to
4.5 and 6); each of them says so in its documentation.
-/

namespace shpgit

/-- Modelled from the spec: the git error classes of package `shpgit`, of which the
specification names one, `AuthPrompted` (the package is not among the sources). -/
inductive ErrorClass where
  | AuthPrompted
  deriving DecidableEq, Repr

/-- Modelled from the spec: `ErrorClass.String()`, the reason token; the spec gives
`Reason="AuthPrompted"`. -/
def ErrorClass.String : ErrorClass → String
  | .AuthPrompted => "AuthPrompted"

end shpgit

namespace engine

/-- Modelled from the spec: `FailureDetails{Reason, Message}` of section 3 (the API
types are not among the sources). -/
structure FailureDetails where
  Reason : String
  Message : String
  deriving DecidableEq, Repr

/-- Modelled from the spec: an image platform, with the two fields the e2e test
sets in `v1.Platform{Architecture, OS}`. -/
structure Platform where
  Architecture : String
  OS : String
  deriving DecidableEq, Repr

/-- Modelled from the spec: an image digest in the form the specification writes it,
`sha256:abc...` (section 8): an algorithm and a hex value. -/
structure Digest where
  Algorithm : String
  Hex : String
  deriving DecidableEq, Repr

/-- Modelled from the spec: the text of a digest, algorithm and hex value joined by a
colon, as it is written to `Results.ImageDigest`. -/
def Digest.String (d : Digest) : String :=
  d.Algorithm ++ ":" ++ d.Hex

/-- Modelled from the spec: `Results{ImageDigest, ImageSize, Platforms[], SourceCommit}`
of section 3; an unset string is empty, an unset size is zero. -/
structure Results where
  ImageDigest : String
  ImageSize : Nat
  Platforms : List Platform
  SourceCommit : String
  deriving DecidableEq, Repr

/-- Modelled from the spec: the scope a strategy is resolved in (section 4.2). -/
inductive Scope where
  | Namespace
  | Cluster
  deriving DecidableEq, Repr

/-- Modelled from the spec: a build strategy object, a named recipe of build steps
(glossary); the API type is not among the sources. -/
structure BuildStrategy where
  Name : String
  Steps : List String
  deriving DecidableEq, Repr

/-- Modelled from the spec: the Build of section 3, with the attributes the engine
reads: identity, source location (repository URL, revision, credentials), strategy
reference and the opt-in to delete dependent runs on deletion. -/
structure Build where
  Namespace : String
  Name : String
  SourceURL : String
  Revision : String
  CredentialsRef : Option String
  StrategyName : String
  BuildRunDeletion : Bool
  deriving DecidableEq, Repr

/-- Modelled from the spec: the stored BuildRun of section 3, bound to one Build by
name (`none` for an inlined build spec). -/
structure BuildRun where
  Namespace : String
  Name : String
  BuildRef : Option String
  deriving DecidableEq, Repr

/-- Modelled from the spec: the declarative object store of section 6, holding the
typed objects of the engine; namespaced strategies are stored with their namespace. -/
structure ObjectStore where
  Builds : List Build
  BuildRuns : List BuildRun
  BuildStrategies : List (String × BuildStrategy)
  ClusterBuildStrategies : List BuildStrategy
  deriving DecidableEq, Repr

/-- Modelled from the spec: errors of the object store; `NotFound` is the one the
engine tells apart (sections 4.5 and 6). -/
inductive StoreError where
  | NotFound
  | Conflict
  deriving DecidableEq, Repr

/-- Modelled from the spec: result of a fallible collaborator call, a value or an
error, as in `X | Error` of section 6. -/
inductive Outcome (ε α : Type) where
  | ok (value : α)
  | error (err : ε)
  deriving DecidableEq, Repr

/-! ### Strategy resolver (section 4.2) -/

/-- Modelled from the spec: lookup of the namespaced strategy object named `name` in
`ns` (the `get` of the object store). -/
def getBuildStrategy (store : ObjectStore) (ns name : String) : Option BuildStrategy :=
  (store.BuildStrategies.find? (fun e => decide (e.1 = ns ∧ e.2.Name = name))).map Prod.snd

/-- Modelled from the spec: lookup of the cluster-scoped strategy object named `name`. -/
def getClusterBuildStrategy (store : ObjectStore) (name : String) : Option BuildStrategy :=
  store.ClusterBuildStrategies.find? (fun s => decide (s.Name = name))

/-- Modelled from the spec: the classified error of the resolver. -/
inductive ResolveError where
  | ReferencedStrategyNotFound
  deriving DecidableEq, Repr

/-- Modelled from the spec: `resolve(namespace, name) -> (Strategy, scope)` of section
4.2: the namespaced lookup first, then the cluster-scoped one, else
`ReferencedStrategyNotFound`. The resolver itself is not among the sources. -/
def resolve (store : ObjectStore) (ns name : String) :
    Outcome ResolveError (BuildStrategy × Scope) :=
  match getBuildStrategy store ns name with
  | some s => .ok (s, Scope.Namespace)
  | none =>
    match getClusterBuildStrategy store name with
    | some s => .ok (s, Scope.Cluster)
    | none => .error ResolveError.ReferencedStrategyNotFound

/-! ### Failure classifier (section 4.3) -/

/-- Modelled from the spec: infra-level failures the classifier names in section 4.3. -/
inductive InfraFailure where
  | PodEvicted
  | BuildRunTimeout
  deriving DecidableEq, Repr

/-- Modelled from the spec: the reason token of an infra-level failure. -/
def InfraFailure.Reason : InfraFailure → String
  | .PodEvicted => "PodEvicted"
  | .BuildRunTimeout => "BuildRunTimeout"

/-- Modelled from the spec: the states of the BuildRun state machine. -/
inductive State where
  | Pending
  | Validating
  | Resolving
  | Submitted
  | Running
  | Succeeded
  | Failed
  | Canceled
  deriving DecidableEq, Repr

/-- Modelled from the spec: status of the `Succeeded` condition. -/
inductive ConditionStatus where
  | True
  | False
  | Unknown
  deriving DecidableEq, Repr

/-- Modelled from the spec: the status of a BuildRun (section 3): its state, the
optional `FailureDetails` and `Results`, the resolved strategy, the handle of the
one job it owns, and what is left of the retry budget for submissions. -/
structure BuildRunStatus where
  State : State
  FailureDetails : Option FailureDetails
  Results : Option Results
  Strategy : Option (BuildStrategy × Scope)
  Job : Option Nat
  SubmitRetries : Nat
  deriving DecidableEq, Repr

/-- Modelled from the spec: the `Succeeded` condition a caller observes: true in
`Succeeded`, false in `Failed` and `Canceled`, unknown while in progress. -/
def BuildRunStatus.Succeeded (s : BuildRunStatus) : ConditionStatus :=
  match s.State with
  | .Succeeded => ConditionStatus.True
  | .Failed => ConditionStatus.False
  | .Canceled => ConditionStatus.False
  | _ => ConditionStatus.Unknown

/-- Modelled from the spec: `GetBuild`, the store lookup of a Build by namespace and
name. -/
def GetBuild (store : ObjectStore) (ns name : String) : Outcome StoreError Build :=
  match store.Builds.find? (fun b => decide (b.Namespace = ns ∧ b.Name = name)) with
  | some b => .ok b
  | none => .error StoreError.NotFound

/-- Modelled from the spec: `GetBR` of the e2e test, the store lookup of a BuildRun by
namespace and name; an absent object is a `NotFound` error. -/
def GetBR (store : ObjectStore) (ns name : String) : Outcome StoreError BuildRun :=
  match store.BuildRuns.find? (fun r => decide (r.Namespace = ns ∧ r.Name = name)) with
  | some r => .ok r
  | none => .error StoreError.NotFound

/-- Modelled from the spec: `DeleteBR`, the store deletion of a BuildRun; deleting an
absent object answers `NotFound`. -/
def DeleteBR (store : ObjectStore) (ns name : String) : Outcome StoreError ObjectStore :=
  if store.BuildRuns.any (fun r => decide (r.Namespace = ns ∧ r.Name = name)) then
    .ok { store with
          BuildRuns := store.BuildRuns.filter
            (fun r => !decide (r.Namespace = ns ∧ r.Name = name)) }
  else .error StoreError.NotFound

/-- Modelled from the spec: a BuildRun depends on a Build when it lives in the Build's
namespace and refers to it by name (the field-indexed lookup of section 6). -/
def dependsOn (r : BuildRun) (b : Build) : Bool :=
  decide (r.Namespace = b.Namespace) && decide (r.BuildRef = some b.Name)

/-- Modelled from the spec: the explicit deletion requests of the GC manager, one per
dependent BuildRun; a `NotFound` answer counts as success (section 4.5). -/
def deleteBuildRuns (store : ObjectStore) : List BuildRun → ObjectStore
  | [] => store
  | r :: rs =>
    match DeleteBR store r.Namespace r.Name with
    | .ok store1 => deleteBuildRuns store1 rs
    | .error _ => deleteBuildRuns store rs

/-- Modelled from the spec: the dependent BuildRuns of `b` as the GC manager looks them
up in the store (the field-indexed lookup of section 6). -/
def dependentBuildRuns (store : ObjectStore) (b : Build) : List BuildRun :=
  store.BuildRuns.filter (fun r => dependsOn r b)

/-- Modelled from the spec: `DeleteBuild` of the e2e test, the store deletion of a
Build; deleting an absent object answers `NotFound`. -/
def DeleteBuild (store : ObjectStore) (ns name : String) : Outcome StoreError ObjectStore :=
  match GetBuild store ns name with
  | .error e => .error e
  | .ok _ =>
    .ok { store with
          Builds := store.Builds.filter
            (fun x => !decide (x.Namespace = ns ∧ x.Name = name)) }

/-- Modelled from the spec: the reaction of the GC manager of section 4.5 to the
deletion of `b`, run on the store as it is by then: with the opt-in it requests the
deletion of each of the `dependents` it looked up, without it the store is left
alone. The manager is not among the sources. -/
def onBuildDeleted (store : ObjectStore) (b : Build) (dependents : List BuildRun) :
    ObjectStore :=
  if b.BuildRunDeletion then deleteBuildRuns store dependents else store

/-! ### Sample objects of the end-to-end scenarios -/

/-- Sample Build in namespace "ns" with the opt-in to delete its runs, referring to the
strategy "buildah" and to a repository that no git host has, without credentials. -/
def sampleBuild : Build :=
  { Namespace := "ns", Name := "build", SourceURL := "https://github.com/shipwright-io/missing",
    Revision := "main", CredentialsRef := none, StrategyName := "buildah",
    BuildRunDeletion := true }

/-- Sample store: the Build above, one BuildRun bound to it and one bound to another
Build, and a namespaced and a cluster-scoped strategy both named "buildah" (the
example of the specification). -/
def sampleStore : ObjectStore :=
  { Builds := [sampleBuild],
    BuildRuns := [{ Namespace := "ns", Name := "run-1", BuildRef := some "build" },
                  { Namespace := "ns", Name := "run-2", BuildRef := some "other" }],
    BuildStrategies := [("ns", { Name := "buildah", Steps := ["namespaced"] })],
    ClusterBuildStrategies := [{ Name := "buildah", Steps := ["cluster"] }] }

end engine

/-! ## Part I, theorems: the validator dispatcher -/

namespace validate

/-- C1: for every validationType that is none of the six concern tokens, and every
Build, client and scheme, `NewValidation` returns a nil validator and an error whose
message is exactly "unknown validation type", whatever the token was. -/
theorem NewValidation_unknown_type {B C S : Type} (validationType : String)
    (build : Option B) (client : Option C) (scheme : Option S)
    (h : validationType ∉
      ["secrets", "strategy", "sourceurl", "runtime", "sources", "ownerreferences"]) :
    NewValidation validationType build client scheme
      = (none, some { msg := "unknown validation type" }) := by
  simp only [List.mem_cons, List.mem_singleton, List.not_mem_nil, or_false, not_or] at h
  obtain ⟨h1, h2, h3, h4, h5, h6⟩ := h
  simp [NewValidation, Secrets, Strategies, SourceURL, Runtime, Sources, OwnerReferences,
    Errorf, h1, h2, h3, h4, h5, h6]

/-- Witness of C1 at the token "bogus", with a nil build, client and scheme. -/
theorem NewValidation_unknown_type_witness :
    "bogus" ∉ ["secrets", "strategy", "sourceurl", "runtime", "sources", "ownerreferences"] ∧
    NewValidation "bogus" (none : Option Nat) (none : Option Nat) (none : Option Nat)
      = (none, some { msg := "unknown validation type" }) :=
  ⟨by decide, NewValidation_unknown_type "bogus" none none none (by decide)⟩

/-- C2: for each of the six concern tokens and every Build, client and scheme (nil ones
included), `NewValidation` returns a nil error and a non-nil validator of the kind of
that concern: secrets a Credentials, strategy a Strategy, sourceurl a SourceURLRef,
runtime a RuntimeRef, sources a SourcesRef, ownerreferences an OwnerRef. -/
theorem NewValidation_kind {B C S : Type} (build : Option B) (client : Option C)
    (scheme : Option S) :
    (Secrets = "secrets" ∧ ∃ v : BuildPath B C S,
      NewValidation "secrets" build client scheme = (some v, none) ∧
        v.kind = Kind.Credentials) ∧
    (Strategies = "strategy" ∧ ∃ v : BuildPath B C S,
      NewValidation "strategy" build client scheme = (some v, none) ∧
        v.kind = Kind.Strategy) ∧
    (SourceURL = "sourceurl" ∧ ∃ v : BuildPath B C S,
      NewValidation "sourceurl" build client scheme = (some v, none) ∧
        v.kind = Kind.SourceURLRef) ∧
    (Runtime = "runtime" ∧ ∃ v : BuildPath B C S,
      NewValidation "runtime" build client scheme = (some v, none) ∧
        v.kind = Kind.RuntimeRef) ∧
    (Sources = "sources" ∧ ∃ v : BuildPath B C S,
      NewValidation "sources" build client scheme = (some v, none) ∧
        v.kind = Kind.SourcesRef) ∧
    (OwnerReferences = "ownerreferences" ∧ ∃ v : BuildPath B C S,
      NewValidation "ownerreferences" build client scheme = (some v, none) ∧
        v.kind = Kind.OwnerRef) := by
  refine ⟨⟨rfl, ?_⟩, ⟨rfl, ?_⟩, ⟨rfl, ?_⟩, ⟨rfl, ?_⟩, ⟨rfl, ?_⟩, ⟨rfl, ?_⟩⟩ <;>
    simp [NewValidation, Secrets, Strategies, SourceURL, Runtime, Sources, OwnerReferences,
      BuildPath.kind]

/-- C3: for every one of the six recognized concern tokens, the validator that
`NewValidation` constructs is bound to the current Build: its Build field is exactly
the Build passed to `NewValidation`. -/
theorem NewValidation_build {B C S : Type} (validationType : String) (build : Option B)
    (client : Option C) (scheme : Option S) (h : validationType ∈ concerns) :
    ∃ v, NewValidation validationType build client scheme = (some v, none) ∧
      v.build = build := by
  simp only [concerns, List.mem_cons, List.mem_singleton, List.not_mem_nil, or_false] at h
  rcases h with rfl | rfl | rfl | rfl | rfl | rfl <;>
    simp [NewValidation, Secrets, Strategies, SourceURL, Runtime, Sources, OwnerReferences,
      BuildPath.build]

/-- Witness of C3 at the token "runtime". -/
theorem NewValidation_build_witness :
    "runtime" ∈ concerns ∧
    ∃ v, NewValidation "runtime" (some 1) (some 2) (some 3) = (some v, none) ∧
      BuildPath.build v = some 1 :=
  ⟨by decide, NewValidation_build "runtime" (some 1) (some 2) (some 3) (by decide)⟩

/-- C4 as stated fails at the token "sources": the validator built there carries no
client, and the whole result is the same for two different clients. -/
theorem NewValidation_client_counterexample :
    Sources ∈ concerns ∧
    (¬ ∃ v, (NewValidation (B := Nat) (C := Nat) (S := Nat) Sources (some 1) (some 2)
        (some 3)).1 = some v ∧ v.client = some (some 2)) ∧
    NewValidation (B := Nat) (C := Nat) (S := Nat) Sources (some 1) (some 2) (some 3)
      = NewValidation Sources (some 1) (some 7) (some 3) := by
  refine ⟨by decide, ?_, by decide⟩
  simp [NewValidation, Secrets, Strategies, SourceURL, Runtime, Sources, OwnerReferences,
    BuildPath.client]

/-- C4, amended: for the five tokens secrets, strategy, sourceurl, runtime and
ownerreferences the validator that `NewValidation` constructs is bound to the client
passed to it; for sources the validator is `SourcesRef{Build: build}`, which carries
no client, and the result is the same for every client. -/
theorem NewValidation_client {B C S : Type} (validationType : String) (build : Option B)
    (client : Option C) (scheme : Option S) (h : validationType ∈ concerns) :
    (validationType ≠ Sources →
      ∃ v, NewValidation validationType build client scheme = (some v, none) ∧
        v.client = some client) ∧
    (validationType = Sources →
      NewValidation validationType build client scheme
          = (some (.ofSourcesRef { Build := build }), none) ∧
        ∀ client2 : Option C,
          NewValidation validationType build client2 scheme
            = NewValidation validationType build client scheme) := by
  simp only [concerns, List.mem_cons, List.mem_singleton, List.not_mem_nil, or_false] at h
  rcases h with rfl | rfl | rfl | rfl | rfl | rfl <;>
    simp [NewValidation, Secrets, Strategies, SourceURL, Runtime, Sources, OwnerReferences,
      BuildPath.client]

/-- Witness of the amended C4 at the tokens "strategy" and "sources". -/
theorem NewValidation_client_witness :
    ("strategy" ∈ concerns ∧ "strategy" ≠ Sources ∧
      ∃ v, NewValidation "strategy" (some 1) (some 2) (some 3) = (some v, none) ∧
        BuildPath.client v = some (some 2)) ∧
    ("sources" ∈ concerns ∧
      NewValidation "sources" (some 1) (some 2) (some 3)
        = (some (BuildPath.ofSourcesRef { Build := some 1 }), none)) :=
  ⟨⟨by decide, by decide,
      (NewValidation_client "strategy" (some 1) (some 2) (some 3) (by decide)).1 (by decide)⟩,
    ⟨by decide,
      ((NewValidation_client "sources" (some 1) (some 2) (some 3) (by decide)).2 rfl).1⟩⟩

/-- C5: the scheme is bound for OwnerReferences only: for the token "ownerreferences"
the constructed OwnerRef carries exactly the scheme passed to `NewValidation`, and
for every other token, recognized or not, the result of `NewValidation` is the same
for any two schemes, the other arguments being equal. -/
theorem NewValidation_scheme {B C S : Type} (validationType : String) (build : Option B)
    (client : Option C) (scheme scheme2 : Option S) :
    (∃ v, NewValidation "ownerreferences" build client scheme = (some v, none) ∧
      v.kind = Kind.OwnerRef ∧ v.scheme = some scheme) ∧
    (validationType ≠ "ownerreferences" →
      NewValidation validationType build client scheme
        = NewValidation validationType build client scheme2) := by
  constructor
  · simp [NewValidation, Secrets, Strategies, SourceURL, Runtime, Sources, OwnerReferences,
      BuildPath.kind, BuildPath.scheme]
  · intro h
    simp [NewValidation, OwnerReferences, h]

/-- Witness of C5: the token "secrets" with two different schemes. -/
theorem NewValidation_scheme_witness :
    "secrets" ≠ "ownerreferences" ∧
    NewValidation "secrets" (some 1) (some 2) (some 3)
      = NewValidation "secrets" (some 1) (some 2) (some 4) :=
  ⟨by decide, (NewValidation_scheme "secrets" (some 1) (some 2) (some 3) (some 4)).2
    (by decide)⟩

/-- C11: `NewValidation` matches the concern token by exact, case-sensitive string
equality, without trimming or aliasing: it returns a nil error exactly for the six
literal tokens, and the tokens "", "Secrets", "SECRETS", " secrets", "strategies",
"sourceURL", "ownerReferences", "namespace" and "name" (the last two are the
unexported constants of the const block) are all rejected with a nil validator and
the error "unknown validation type". -/
theorem NewValidation_exact_match {B C S : Type} (build : Option B) (client : Option C)
    (scheme : Option S) :
    (∀ validationType : String,
      (NewValidation validationType build client scheme).2 = none ↔
        validationType ∈
          ["secrets", "strategy", "sourceurl", "runtime", "sources", "ownerreferences"]) ∧
    (namespace' = "namespace" ∧ name = "name") ∧
    (∀ validationType : String,
      validationType ∈ ["", "Secrets", "SECRETS", " secrets", "strategies", "sourceURL",
        "ownerReferences", namespace', name] →
      NewValidation validationType build client scheme
        = (none, some { msg := "unknown validation type" })) := by
  refine ⟨?_, ⟨rfl, rfl⟩, ?_⟩
  · intro validationType
    simp only [List.mem_cons, List.mem_singleton, List.not_mem_nil, or_false]
    constructor
    · intro h
      by_contra hn
      simp only [not_or] at hn
      obtain ⟨h1, h2, h3, h4, h5, h6⟩ := hn
      simp [NewValidation, Secrets, Strategies, SourceURL, Runtime, Sources,
        OwnerReferences, h1, h2, h3, h4, h5, h6] at h
    · intro h
      rcases h with rfl | rfl | rfl | rfl | rfl | rfl <;>
        simp [NewValidation, Secrets, Strategies, SourceURL, Runtime, Sources,
          OwnerReferences]
  · intro validationType h
    simp only [List.mem_cons, List.mem_singleton, List.not_mem_nil, or_false] at h
    rcases h with rfl | rfl | rfl | rfl | rfl | rfl | rfl | rfl | rfl <;>
      simp [NewValidation, Secrets, Strategies, SourceURL, Runtime, Sources,
        OwnerReferences, Errorf, namespace', name]

/-- Witness of C11: the token " secrets", with its leading blank, is rejected. -/
theorem NewValidation_exact_match_witness :
    " secrets" ∈ ["", "Secrets", "SECRETS", " secrets", "strategies", "sourceURL",
        "ownerReferences", namespace', name] ∧
    NewValidation " secrets" (some 1) (some 2) (some 3)
      = (none, some { msg := "unknown validation type" }) :=
  ⟨by decide, (NewValidation_exact_match (some 1) (some 2) (some 3)).2.2 " secrets"
    (by decide)⟩

end validate

/-! ## Part II, theorems: strategy resolver -/

namespace engine

theorem getBuildStrategy_some {store : ObjectStore} {ns n : String} {s : BuildStrategy}
    (h : getBuildStrategy store ns n = some s) :
    (ns, s) ∈ store.BuildStrategies ∧ s.Name = n := by
  unfold getBuildStrategy at h
  rw [Option.map_eq_some'] at h
  obtain ⟨e, he, rfl⟩ := h
  have hp := List.find?_some he
  have hm := List.mem_of_find?_eq_some he
  simp only [decide_eq_true_eq] at hp
  obtain ⟨h1, h2⟩ := hp
  subst h1
  exact ⟨hm, h2⟩

theorem getBuildStrategy_none {store : ObjectStore} {ns n : String} :
    getBuildStrategy store ns n = none ↔
      ¬ ∃ s, (ns, s) ∈ store.BuildStrategies ∧ s.Name = n := by
  unfold getBuildStrategy
  rw [Option.map_eq_none', List.find?_eq_none]
  constructor
  · rintro h ⟨s, hs, hn⟩
    exact h (ns, s) hs (by simp [hn])
  · intro h e he hp
    simp only [decide_eq_true_eq] at hp
    obtain ⟨h1, h2⟩ := hp
    exact h ⟨e.2, by rw [← h1]; exact he, h2⟩

theorem getClusterBuildStrategy_some {store : ObjectStore} {n : String} {s : BuildStrategy}
    (h : getClusterBuildStrategy store n = some s) :
    s ∈ store.ClusterBuildStrategies ∧ s.Name = n := by
  unfold getClusterBuildStrategy at h
  have hp := List.find?_some h
  simp only [decide_eq_true_eq] at hp
  exact ⟨List.mem_of_find?_eq_some h, hp⟩

theorem getClusterBuildStrategy_none {store : ObjectStore} {n : String} :
    getClusterBuildStrategy store n = none ↔
      ¬ ∃ s, s ∈ store.ClusterBuildStrategies ∧ s.Name = n := by
  unfold getClusterBuildStrategy
  rw [List.find?_eq_none]
  constructor
  · rintro h ⟨s, hs, hn⟩
    exact h s hs (by simp [hn])
  · intro h e he hp
    simp only [decide_eq_true_eq] at hp
    exact h ⟨e, he, hp⟩

/-- C10: strategy resolution is deterministic and namespace-first. For every store,
namespace ns and name n: if a namespaced strategy named n exists in ns, resolving
(ns, n) returns a namespaced strategy of that name with scope Namespace, whatever the
cluster-scoped strategies are (and it is that very object when the store holds one
object under the key); a cluster-scoped strategy is returned only when no namespaced
one exists, and then one is returned whenever one exists; the error
ReferencedStrategyNotFound is returned exactly when neither exists. -/
theorem resolve_namespace_first (store : ObjectStore) (ns n : String) :
    (∀ s, (ns, s) ∈ store.BuildStrategies → s.Name = n →
      ∃ s1, (ns, s1) ∈ store.BuildStrategies ∧ s1.Name = n ∧
        resolve store ns n = .ok (s1, Scope.Namespace) ∧
        ((∀ s2, (ns, s2) ∈ store.BuildStrategies → s2.Name = n → s2 = s) → s1 = s)) ∧
    (∀ s, resolve store ns n = .ok (s, Scope.Cluster) →
      (¬ ∃ s1, (ns, s1) ∈ store.BuildStrategies ∧ s1.Name = n) ∧
        s ∈ store.ClusterBuildStrategies ∧ s.Name = n) ∧
    ((¬ ∃ s1, (ns, s1) ∈ store.BuildStrategies ∧ s1.Name = n) →
      ∀ s, s ∈ store.ClusterBuildStrategies → s.Name = n →
        ∃ s1, s1 ∈ store.ClusterBuildStrategies ∧ s1.Name = n ∧
          resolve store ns n = .ok (s1, Scope.Cluster)) ∧
    (resolve store ns n = .error ResolveError.ReferencedStrategyNotFound ↔
      (¬ ∃ s1, (ns, s1) ∈ store.BuildStrategies ∧ s1.Name = n) ∧
        ¬ ∃ s1, s1 ∈ store.ClusterBuildStrategies ∧ s1.Name = n) := by
  refine ⟨?_, ?_, ?_, ?_⟩
  · intro s hs hn
    cases hg : getBuildStrategy store ns n with
    | none => exact absurd ⟨s, hs, hn⟩ (getBuildStrategy_none.mp hg)
    | some s1 =>
      obtain ⟨h1, h2⟩ := getBuildStrategy_some hg
      exact ⟨s1, h1, h2, by simp [resolve, hg], fun hu => hu s1 h1 h2⟩
  · intro s hr
    cases hg : getBuildStrategy store ns n with
    | some s1 => simp [resolve, hg] at hr
    | none =>
      cases hc : getClusterBuildStrategy store n with
      | none => simp [resolve, hg, hc] at hr
      | some s1 =>
        simp [resolve, hg, hc] at hr
        subst hr
        exact ⟨getBuildStrategy_none.mp hg, getClusterBuildStrategy_some hc⟩
  · intro hno s hs hn
    have hg := getBuildStrategy_none.mpr hno
    cases hc : getClusterBuildStrategy store n with
    | none => exact absurd ⟨s, hs, hn⟩ (getClusterBuildStrategy_none.mp hc)
    | some s1 =>
      obtain ⟨h1, h2⟩ := getClusterBuildStrategy_some hc
      exact ⟨s1, h1, h2, by simp [resolve, hg, hc]⟩
  · constructor
    · intro hr
      cases hg : getBuildStrategy store ns n with
      | some s1 => simp [resolve, hg] at hr
      | none =>
        cases hc : getClusterBuildStrategy store n with
        | some s1 => simp [resolve, hg, hc] at hr
        | none => exact ⟨getBuildStrategy_none.mp hg, getClusterBuildStrategy_none.mp hc⟩
    · rintro ⟨h1, h2⟩
      simp [resolve, getBuildStrategy_none.mpr h1, getClusterBuildStrategy_none.mpr h2]

end engine

/-! ## Part II, theorems: ownership and garbage collection -/

namespace engine

theorem GetBR_notFound {store : ObjectStore} {ns name : String}
    (h : ∀ r ∈ store.BuildRuns, ¬ (r.Namespace = ns ∧ r.Name = name)) :
    GetBR store ns name = .error StoreError.NotFound := by
  have hf : store.BuildRuns.find? (fun r => decide (r.Namespace = ns ∧ r.Name = name)) = none := by
    rw [List.find?_eq_none]
    intro r hr hp
    exact h r hr (by simpa using hp)
  unfold GetBR
  rw [hf]

theorem deleteBuildRuns_subset (l : List BuildRun) :
    ∀ (store : ObjectStore) (r : BuildRun),
      r ∈ (deleteBuildRuns store l).BuildRuns → r ∈ store.BuildRuns := by
  induction l with
  | nil => intro store r h; simpa [deleteBuildRuns] using h
  | cons d ds ih =>
    intro store r h
    unfold deleteBuildRuns at h
    cases hd : DeleteBR store d.Namespace d.Name with
    | error e =>
      rw [hd] at h
      exact ih store r h
    | ok store1 =>
      rw [hd] at h
      have h1 := ih store1 r h
      unfold DeleteBR at hd
      split at hd
      · simp only [Outcome.ok.injEq] at hd
        subst hd
        exact (List.mem_filter.mp h1).1
      · exact absurd hd (by simp)

theorem deleteBuildRuns_removes (l : List BuildRun) :
    ∀ (store : ObjectStore) (d : BuildRun), d ∈ l →
      ∀ r ∈ (deleteBuildRuns store l).BuildRuns,
        ¬ (r.Namespace = d.Namespace ∧ r.Name = d.Name) := by
  induction l with
  | nil => intro store d hd; simp at hd
  | cons x xs ih =>
    intro store d hd r hr
    unfold deleteBuildRuns at hr
    rcases List.mem_cons.mp hd with rfl | hmem
    · cases hx : DeleteBR store d.Namespace d.Name with
      | error e =>
        rw [hx] at hr
        have h1 := deleteBuildRuns_subset xs store r hr
        unfold DeleteBR at hx
        split at hx
        · exact absurd hx (by simp)
        · rename_i hany
          intro hk
          apply hany
          rw [List.any_eq_true]
          exact ⟨r, h1, by simpa using hk⟩
      | ok store1 =>
        rw [hx] at hr
        have h1 := deleteBuildRuns_subset xs store1 r hr
        unfold DeleteBR at hx
        split at hx
        · simp only [Outcome.ok.injEq] at hx
          subst hx
          have h2 := (List.mem_filter.mp h1).2
          intro hk
          simp [hk] at h2
        · exact absurd hx (by simp)
    · cases hx : DeleteBR store x.Namespace x.Name with
      | error e =>
        rw [hx] at hr
        exact ih store d hmem r hr
      | ok store1 =>
        rw [hx] at hr
        exact ih store1 d hmem r hr

/-- C8: when a Build that carries the build-run-deletion opt-in is deleted, the
deletion succeeds and the Build is gone; once the GC manager has reacted to it (a
finite series of deletion requests, whatever happened to the store in between),
every BuildRun that depended on the Build is absent: looking it up returns the
NotFound error and no other. -/
theorem DeleteBuild_cascades (store : ObjectStore) (ns name : String) (b : Build)
    (hb : GetBuild store ns name = .ok b) (ha : b.BuildRunDeletion = true) :
    ∃ store1, DeleteBuild store ns name = .ok store1 ∧
      GetBuild store1 ns name = .error StoreError.NotFound ∧
      ∀ store2 : ObjectStore, ∀ r ∈ store.BuildRuns, dependsOn r b = true →
        GetBR (onBuildDeleted store2 b (dependentBuildRuns store1 b)) r.Namespace r.Name
          = .error StoreError.NotFound := by
  have hd : DeleteBuild store ns name = .ok
      { store with
        Builds := store.Builds.filter
          (fun x => !decide (x.Namespace = ns ∧ x.Name = name)) } := by
    unfold DeleteBuild
    rw [hb]
  refine ⟨_, hd, ?_, ?_⟩
  · have hf : (store.Builds.filter
        (fun x => !decide (x.Namespace = ns ∧ x.Name = name))).find?
        (fun x => decide (x.Namespace = ns ∧ x.Name = name)) = none := by
      rw [List.find?_eq_none]
      intro x hx hp
      have h2 := (List.mem_filter.mp hx).2
      simp only [decide_eq_true_eq] at hp
      simp [hp] at h2
    unfold GetBuild
    simp only
    rw [hf]
  · intro store2 r hr hdep
    apply GetBR_notFound
    simp only [onBuildDeleted, ha, if_true]
    exact deleteBuildRuns_removes _ _ r
      (List.mem_filter.mpr ⟨hr, hdep⟩)

end engine

/-! ## Part II, theorems: BuildRun reconciler -/

namespace engine

end engine

namespace engine

/-- Witness of C8: deleting the sample Build, to which run-1 is bound, with the GC
manager reacting on the store as the deletion left it. -/
theorem DeleteBuild_cascades_witness :
    GetBuild sampleStore "ns" "build" = .ok sampleBuild ∧
    sampleBuild.BuildRunDeletion = true ∧
    ∃ store1, DeleteBuild sampleStore "ns" "build" = .ok store1 ∧
      GetBuild store1 "ns" "build" = .error StoreError.NotFound ∧
      ∀ store2 : ObjectStore, ∀ r ∈ sampleStore.BuildRuns, dependsOn r sampleBuild = true →
        GetBR (onBuildDeleted store2 sampleBuild (dependentBuildRuns store1 sampleBuild))
          r.Namespace r.Name = .error StoreError.NotFound :=
  ⟨by decide, by decide,
    DeleteBuild_cascades sampleStore "ns" "build" sampleBuild (by decide) (by decide)⟩

/-- Witness of C10: the example of the specification, a namespaced and a cluster
strategy both named "buildah". -/
theorem resolve_namespace_first_witness :
    ("ns", { Name := "buildah", Steps := ["namespaced"] }) ∈ sampleStore.BuildStrategies ∧
    ∃ s1, ("ns", s1) ∈ sampleStore.BuildStrategies ∧ s1.Name = "buildah" ∧
      resolve sampleStore "ns" "buildah" = .ok (s1, Scope.Namespace) ∧
      ((∀ s2, ("ns", s2) ∈ sampleStore.BuildStrategies → s2.Name = "buildah" →
          s2 = { Name := "buildah", Steps := ["namespaced"] }) →
        s1 = { Name := "buildah", Steps := ["namespaced"] }) :=
  ⟨by decide,
    (resolve_namespace_first sampleStore "ns" "buildah").1
      { Name := "buildah", Steps := ["namespaced"] } (by decide) rfl⟩

end engine
